import Mathlib

/-!
Verification of the Cloud SQL provisioning façade
(`CloudSQLReplicator/google/cloud/pontem/sql/replicator/util/cloudsql.py`).

The module is embedded shallowly: request bodies are a small JSON value
type, response documents are structures with optional fields, Python
exceptions are an explicit error type, and each fallible operation
returns `Except PyErr α`.  Python-specific semantics that matter here are
modelled explicitly:

* `d[k]` on a dict raises `KeyError k` when the key is absent;
* `next(gen)` with no default raises `StopIteration` when the generator
  is exhausted;
* `if d:` on a dict tests non-emptiness, `a or b` returns `b` when `a`
  is falsy (`None`, empty string, empty dict);
* an `except` block that ends without re-raising makes the function
  return `None`.
-/

namespace Cloudsql

/-- Python exceptions that the module can raise or be handed by the
transport layer. -/
inductive PyErr where
  | keyError (key : String)
  | stopIteration
  | nameError (msg : String)
  | httpError (status : Nat)
  | httpLib2Error
  | otherError (msg : String)
deriving Repr, DecidableEq

/-- Module-level defaults (lines 27-36 of `cloudsql.py`). -/
def DEFAULT_2ND_GEN_DB_VERSION : String := "MYSQL_5_7"

def DEFAULT_2ND_GEN_TIER : String := "db-n1-standard-2"

def DEFAULT_2ND_GEN_REGION : String := "us-central1"

def DEFAULT_REPLICATION_PORT : String := "3306"

/-- Line 48: `SUPPORTED_VERSIONS`, the frozenset of the two MySQL
version strings.  The constant is declared under a `Validation` comment but is never
consulted anywhere in the module. -/
def SUPPORTED_VERSIONS : List String := ["MYSQL_5_6", "MYSQL_5_7"]

/-- A Python dict with string keys and string values, as found in the
entries of the `ipAddresses` list of a response.  Lookup takes the first
match. -/
abbrev Entry := List (String × String)

/-- Python `d.get(k)` view of `d[k]`: `some v` when the key is present,
`none` when `d[k]` would raise `KeyError k`. -/
def dictGet : Entry → String → Option String
  | [], _ => none
  | (k', v) :: rest, k => if k' = k then some v else dictGet rest k

/-- Python truthiness of a dict: non-empty. -/
def Entry.truthy : Entry → Bool
  | [] => false
  | _ :: _ => true

/-- An instance-description document, as returned by
`sqladmin.instances().get`: an optional `ipAddresses` list of address
entries and an optional `serviceAccountEmailAddress` field.  `none`
models the field being absent from the document. -/
structure InstanceDoc where
  ipAddresses : Option (List Entry)
  serviceAccountEmailAddress : Option String
deriving Repr, DecidableEq

/-- The generator expression shared by both extraction functions
(lines 316-319 and 345-348):
`next(a for a in addrs if a[type] == OUTGOING)`.
Returns the first entry whose `type` is `OUTGOING`; raises
`KeyError type` if an earlier entry has no `type` key; raises
`StopIteration` when the list is exhausted with no match, because
`next` is called without a default. -/
def next_outgoing : List Entry → Except PyErr Entry
  | [] => .error .stopIteration
  | a :: rest =>
    match dictGet a "type" with
    | none => .error (.keyError "type")
    | some t => if t = "OUTGOING" then .ok a else next_outgoing rest

/-- Function `get_outgoing_ip_of_instance` (lines 298-325), applied to the
response document fetched by `get_instance`.  If `ipAddresses` is
present, scan it with `next`; a truthy match yields its `ipAddress`
field; a falsy match would reach `raise KeyError(No outgoing IP address
found.)` (line 323); an absent `ipAddresses` field raises
`KeyError(ipAddresses not found in response.)` (line 325). -/
def get_outgoing_ip_of_instance (response : InstanceDoc) : Except PyErr String :=
  match response.ipAddresses with
  | some addrs =>
    match next_outgoing addrs with
    | .error e => .error e
    | .ok outgoing_ip_address =>
      if outgoing_ip_address.truthy then
        match dictGet outgoing_ip_address "ipAddress" with
        | some ip => .ok ip
        | none => .error (.keyError "ipAddress")
      else .error (.keyError "No outgoing IP address found.")
  | none => .error (.keyError "ipAddresses not found in response.")

/-- Function `get_ip_and_service_account` (lines 328-355), applied to the
response document fetched by `get_instance`.  `ip_address` and
`service_account` start as `None`; the `ipAddresses` branch runs the
same `next` scan as the strict variant; the `serviceAccountEmailAddress`
field is copied when present.  Returns the pair
`(ip_address, service_account)`. -/
def get_ip_and_service_account (response : InstanceDoc) :
    Except PyErr (Option String × Option String) :=
  match response.ipAddresses with
  | none => .ok (none, response.serviceAccountEmailAddress)
  | some addrs =>
    match next_outgoing addrs with
    | .error e => .error e
    | .ok outgoing_ip_address =>
      if outgoing_ip_address.truthy then
        match dictGet outgoing_ip_address "ipAddress" with
        | some ip => .ok (some ip, response.serviceAccountEmailAddress)
        | none => .error (.keyError "ipAddress")
      else .ok (none, response.serviceAccountEmailAddress)

/-- Function `is_sql_operation_done` (lines 250-268), applied to the operation
status document fetched from `operations().get`: evaluates
`response[status] == DONE`, so an absent `status` key raises
`KeyError status`. -/
def is_sql_operation_done (response : Entry) : Except PyErr Bool :=
  match dictGet response "status" with
  | some s => .ok (s == "DONE")
  | none => .error (.keyError "status")

/-- Function `get_instance` (lines 271-296), parameterised by the outcome of
`request.execute()`.  The `except (errors.HttpError, HttpLib2Error)`
clause catches exactly those two classes; inside it, only an `HttpError`
with status 404 is translated into
`NameError(Cloud SQL instance ... not found.)`; any other caught error
falls off the end of the function, which therefore returns `None`.
Exceptions of other classes propagate unchanged. -/
def get_instance (inst : String) (transport : Except PyErr InstanceDoc) :
    Except PyErr (Option InstanceDoc) :=
  match transport with
  | .ok doc => .ok (some doc)
  | .error e =>
    match e with
    | .httpError status =>
      if status = 404 then
        .error (.nameError ("Cloud SQL instance " ++ inst ++ " not found."))
      else .ok none
    | .httpLib2Error => .ok none
    | e => .error e

/-- The JSON-like request bodies the module builds: strings, `None`
(Python inserts it for omitted parameters), and objects.  Object lookup
takes the first match. -/
inductive Json where
  | null
  | str (s : String)
  | obj (fields : List (String × Json))
deriving Repr

/-- Python truthiness of a body value: `None`, the empty string and the
empty dict are falsy. -/
def Json.truthy : Json → Bool
  | .null => false
  | .str "" => false
  | .str _ => true
  | .obj [] => false
  | .obj (_ :: _) => true

/-- First-match lookup in the field list of an object body. -/
def getField : List (String × Json) → String → Option Json
  | [], _ => none
  | (k', v) :: rest, k => if k' = k then some v else getField rest k

/-- Field lookup on an object body; `none` on a non-object or an absent
key. -/
def Json.get : Json → String → Option Json
  | .obj fs, k => getField fs k
  | _, _ => none

/-- Python `a or b` on an optional body: `b` when `a` is `None` or
falsy. -/
def pyOr (a : Option Json) (b : Json) : Json :=
  match a with
  | none => b
  | some j => if j.truthy then j else b

/-- Python `a or b` on an optional string: `b` when `a` is `None` or
empty. -/
def pyOrStr (a : Option String) (b : String) : String :=
  match a with
  | none => b
  | some s => if s = "" then b else s

/-- Python `str` of a possibly-`None` string, as produced by
`format`: `None` prints as the four characters `None`. -/
def pyStr : Option String → String
  | none => "None"
  | some s => s

/-- Python `None`-or-string as a dict value. -/
def Json.ofOpt : Option String → Json
  | none => .null
  | some s => .str s

/-- Body `default_database_instance_body` (lines 85-90): the generated name
is `DEFAULT_CLOUDSQL_FORMAT_STRING.format(uuid.uuid4())`, i.e.
`cloudsql-db-` followed by the random token. -/
def default_database_instance_body (uuid : String) : Json :=
  .obj [("name", .str ("cloudsql-db-" ++ uuid)),
        ("settings", .obj [("tier", .str DEFAULT_2ND_GEN_TIER)])]

/-- The body `create_cloudsql_instance` (lines 70-98) sends to
`instances().insert`: `database_instance_body or
default_database_instance_body`.  `uuid` is the random token drawn for
the default body. -/
def create_cloudsql_instance_body (database_instance_body : Option Json)
    (uuid : String) : Json :=
  pyOr database_instance_body (default_database_instance_body uuid)

/-- Body `default_source_body` (lines 132-142): name is `source_name or
DEFAULT_EXT_MASTER_FORMAT_STRING.format(uuid.uuid4())`; `hostPort` is
`str.format` of the possibly-`None` ip address and the port. -/
def default_source_body (ip_address : Option String) (port : String)
    (database_version : String) (region : String)
    (source_name : Option String) (uuid : String) : Json :=
  .obj [("name", .str (pyOrStr source_name ("external-mysql-representation-" ++ uuid))),
        ("databaseVersion", .str database_version),
        ("region", .str region),
        ("onPremisesConfiguration", .obj
          [("kind", .str "sql#onPremisesConfiguration"),
           ("hostPort", .str (pyStr ip_address ++ ":" ++ port))])]

/-- The body `create_source_representation` (lines 101-150) hands to
`create_cloudsql_instance`: `source_body or default_source_body`,
then threaded through the `or` defaulting of that function.  `uuid` is
the token drawn for the source name, `uuid2` the one drawn inside
`create_cloudsql_instance`. -/
def create_source_representation_body (ip_address : Option String)
    (port : String) (database_version : String) (region : String)
    (source_name : Option String) (source_body : Option Json)
    (uuid uuid2 : String) : Json :=
  create_cloudsql_instance_body
    (some (pyOr source_body
      (default_source_body ip_address port database_version region source_name uuid)))
    uuid2

/-- Body `default_replica_body` (lines 186-204). -/
def default_replica_body (master_instance_name dumpfile_path replica_user
    replica_pwd replica_name : Option String) (uuid : String) : Json :=
  .obj [("name", .str (pyOrStr replica_name ("cloudsql-replica-" ++ uuid))),
        ("settings", .obj [("tier", .str DEFAULT_2ND_GEN_TIER)]),
        ("databaseVersion", .str DEFAULT_2ND_GEN_DB_VERSION),
        ("masterInstanceName", Json.ofOpt master_instance_name),
        ("region", .str DEFAULT_2ND_GEN_REGION),
        ("replicaConfiguration", .obj
          [("mysqlReplicaConfiguration", .obj
            [("dumpFilePath", Json.ofOpt dumpfile_path),
             ("username", Json.ofOpt replica_user),
             ("password", Json.ofOpt replica_pwd)])])]

/-- The body `create_replica_instance` (lines 153-212) hands to
`create_cloudsql_instance`: `replica_body or default_replica_body`,
threaded through the `or` defaulting of that function. -/
def create_replica_instance_body (master_instance_name dumpfile_path
    replica_user replica_pwd replica_name : Option String)
    (replica_body : Option Json) (uuid uuid2 : String) : Json :=
  create_cloudsql_instance_body
    (some (pyOr replica_body
      (default_replica_body master_instance_name dumpfile_path replica_user
        replica_pwd replica_name uuid)))
    uuid2

/-- Body `instances_import_request_body` (lines 232-238), built by
`import_sql_database`: no defaulting, no generated name. -/
def instances_import_request_body (import_file_uri : String) : Json :=
  .obj [("importContext", .obj
    [("kind", .str "sql#importContext"),
     ("fileType", .str "SQL"),
     ("uri", .str import_file_uri)])]

/-- C1: the "field absent" half holds (`KeyError` naming `ipAddresses`
when the document has no address list), but on a document whose address
list has no `OUTGOING` entry the code raises `StopIteration` from
`next`, not the documented `KeyError(No outgoing IP address found.)`:
that `raise` on line 323 is unreachable, because any entry satisfying
the filter of the generator has a `type` key and is therefore truthy. -/
theorem C1_divergence :
    get_outgoing_ip_of_instance
        ⟨some [[("type", "INCOMING"), ("ipAddress", "1.1.1.1")]], none⟩
      = .error .stopIteration
    ∧ get_outgoing_ip_of_instance
        ⟨some [[("type", "INCOMING"), ("ipAddress", "1.1.1.1")]], none⟩
      ≠ .error (.keyError "No outgoing IP address found.")
    ∧ get_outgoing_ip_of_instance ⟨none, none⟩
      = .error (.keyError "ipAddresses not found in response.") :=
  ⟨rfl, by simp [get_outgoing_ip_of_instance, next_outgoing, dictGet], rfl⟩

/-- C2: `get_ip_and_service_account` is not raise-free: on a document
whose address list is present but has no `OUTGOING` entry, the shared
`next` scan raises `StopIteration`.  The halves of the claim about
absent fields do hold: a document missing both fields yields
`(None, None)`, and a missing address list with a present service
account yields `(None, email)`. -/
theorem C2_divergence :
    get_ip_and_service_account
        ⟨some [[("type", "INCOMING"), ("ipAddress", "7.7.7.7")]],
         some "sa@project.iam.gserviceaccount.com"⟩
      = .error .stopIteration
    ∧ get_ip_and_service_account ⟨none, none⟩ = .ok (none, none)
    ∧ get_ip_and_service_account ⟨none, some "sa@project.iam.gserviceaccount.com"⟩
      = .ok (none, some "sa@project.iam.gserviceaccount.com") :=
  ⟨rfl, rfl, rfl⟩

/-- C3: the 404 half holds (a 404 `HttpError` becomes a `NameError`
carrying the instance identifier), but other transport errors do not
propagate: a non-404 `HttpError` and an `HttpLib2Error` are caught by
the `except` clause, which ends without re-raising, so the function
returns `None`.  Only error classes outside the `except` tuple
propagate. -/
theorem C3_divergence :
    get_instance "my-instance" (.error (.httpError 404))
      = .error (.nameError "Cloud SQL instance my-instance not found.")
    ∧ get_instance "my-instance" (.error (.httpError 500)) = .ok none
    ∧ get_instance "my-instance" (.error .httpLib2Error) = .ok none
    ∧ get_instance "my-instance" (.error (.otherError "socket.timeout"))
      = .error (.otherError "socket.timeout") :=
  ⟨rfl, rfl, rfl, rfl⟩

/-- C4 counterexample: on an operation-status document with no `status`
field, `is_sql_operation_done` raises `KeyError status`; it does not
return false as the claim states. -/
theorem C4_counterexample :
    is_sql_operation_done [("name", "op-1")] = .error (.keyError "status")
    ∧ is_sql_operation_done [("name", "op-1")] ≠ .ok false :=
  ⟨rfl, by simp [is_sql_operation_done, dictGet]⟩

/-- C4 (amended): when the `status` field is present,
`is_sql_operation_done` returns exactly the Boolean comparison of its
value with the terminal string `DONE` (true iff equal, false for every
other value); when the field is absent it raises `KeyError status`
instead of returning false. -/
theorem C4_operation_done (response : Entry) :
    (∀ s, dictGet response "status" = some s →
      is_sql_operation_done response = .ok (s == "DONE"))
    ∧ (dictGet response "status" = none →
      is_sql_operation_done response = .error (.keyError "status")) := by
  refine ⟨fun s hs => ?_, fun h => ?_⟩
  · simp [is_sql_operation_done, hs]
  · simp [is_sql_operation_done, h]

/-- C4 witness: a concrete non-terminal status value yields false. -/
theorem C4_operation_done_witness :
    is_sql_operation_done [("status", "RUNNING")] = .ok ("RUNNING" == "DONE") :=
  (C4_operation_done [("status", "RUNNING")]).1 "RUNNING" rfl

/-- C5 counterexample: an explicitly supplied empty body is falsy, so
`source_body or default_source_body` discards it: the body sent is the
default one, which is not the supplied body and does reflect the
`ip_address` parameter (its `hostPort` carries `9.9.9.9`). -/
theorem C5_counterexample :
    create_source_representation_body (some "9.9.9.9") DEFAULT_REPLICATION_PORT
        DEFAULT_2ND_GEN_DB_VERSION DEFAULT_2ND_GEN_REGION none (some (.obj []))
        "u1" "u2"
      ≠ .obj []
    ∧ (create_source_representation_body (some "9.9.9.9") DEFAULT_REPLICATION_PORT
        DEFAULT_2ND_GEN_DB_VERSION DEFAULT_2ND_GEN_REGION none (some (.obj []))
        "u1" "u2").get "onPremisesConfiguration"
      = some (.obj [("kind", .str "sql#onPremisesConfiguration"),
                    ("hostPort", .str "9.9.9.9:3306")]) := by
  have h2 : (create_source_representation_body (some "9.9.9.9")
      DEFAULT_REPLICATION_PORT DEFAULT_2ND_GEN_DB_VERSION DEFAULT_2ND_GEN_REGION
      none (some (.obj [])) "u1" "u2").get "onPremisesConfiguration"
      = some (.obj [("kind", .str "sql#onPremisesConfiguration"),
                    ("hostPort", .str "9.9.9.9:3306")]) := rfl
  exact ⟨fun h => by rw [h] at h2; exact Option.noConfusion h2, h2⟩

/-- C5 (amended): a truthy (non-empty) explicit body is sent verbatim
for all three instance-creation action kinds, independent of every
other per-field parameter; an empty explicit body, being falsy, is
treated like an absent one and replaced by the default body. -/
theorem C5_truthy_override (b : Json) (hb : b.truthy = true)
    (ip sn mi dp ru rp rn : Option String) (port dv rg u1 u2 : String) :
    create_cloudsql_instance_body (some b) u1 = b
    ∧ create_source_representation_body ip port dv rg sn (some b) u1 u2 = b
    ∧ create_replica_instance_body mi dp ru rp rn (some b) u1 u2 = b := by
  refine ⟨?_, ?_, ?_⟩ <;>
    simp [create_cloudsql_instance_body, create_source_representation_body,
      create_replica_instance_body, pyOr, hb]

/-- C5 witness: a concrete one-field body passes through all three
builders untouched. -/
theorem C5_truthy_override_witness :
    create_cloudsql_instance_body (some (.obj [("name", .str "explicit-name")])) "u1"
      = .obj [("name", .str "explicit-name")]
    ∧ create_source_representation_body none "3306" "MYSQL_5_7" "us-central1" none
        (some (.obj [("name", .str "explicit-name")])) "u1" "u2"
      = .obj [("name", .str "explicit-name")]
    ∧ create_replica_instance_body none none none none none
        (some (.obj [("name", .str "explicit-name")])) "u1" "u2"
      = .obj [("name", .str "explicit-name")] :=
  C5_truthy_override (.obj [("name", .str "explicit-name")]) rfl
    none none none none none none none "3306" "MYSQL_5_7" "us-central1" "u1" "u2"

/-- C6 counterexample: the claim fails as stated for all four kinds:
the plain instance default body has no `databaseVersion` and no
`region` field at all, the source-representation default body has no
`settings`/`tier` field, and the import body has no generated name. -/
theorem C6_counterexample :
    (default_database_instance_body "u").get "databaseVersion" = none
    ∧ (default_database_instance_body "u").get "region" = none
    ∧ (default_source_body none DEFAULT_REPLICATION_PORT DEFAULT_2ND_GEN_DB_VERSION
        DEFAULT_2ND_GEN_REGION none "u").get "settings" = none
    ∧ (instances_import_request_body "gs://bucket/dump.sql").get "name" = none :=
  ⟨rfl, rfl, rfl, rfl⟩

/-- C6 (amended): for the three instance-creation kinds the generated
default names are the documented prefixes followed by the random token,
and every tier / database-version / region field that each default body
actually contains equals the documented default: the plain instance
body carries only `settings.tier`; the source-representation body
carries `databaseVersion` and `region` but no tier; the replica body
carries all three.  The import body contains none of these fields. -/
theorem C6_default_bodies (u : String) :
    (default_database_instance_body u).get "name"
      = some (.str ("cloudsql-db-" ++ u))
    ∧ (default_database_instance_body u).get "settings"
      = some (.obj [("tier", .str "db-n1-standard-2")])
    ∧ (default_source_body none DEFAULT_REPLICATION_PORT DEFAULT_2ND_GEN_DB_VERSION
        DEFAULT_2ND_GEN_REGION none u).get "name"
      = some (.str ("external-mysql-representation-" ++ u))
    ∧ (default_source_body none DEFAULT_REPLICATION_PORT DEFAULT_2ND_GEN_DB_VERSION
        DEFAULT_2ND_GEN_REGION none u).get "databaseVersion"
      = some (.str "MYSQL_5_7")
    ∧ (default_source_body none DEFAULT_REPLICATION_PORT DEFAULT_2ND_GEN_DB_VERSION
        DEFAULT_2ND_GEN_REGION none u).get "region"
      = some (.str "us-central1")
    ∧ (default_replica_body none none none none none u).get "name"
      = some (.str ("cloudsql-replica-" ++ u))
    ∧ (default_replica_body none none none none none u).get "settings"
      = some (.obj [("tier", .str "db-n1-standard-2")])
    ∧ (default_replica_body none none none none none u).get "databaseVersion"
      = some (.str "MYSQL_5_7")
    ∧ (default_replica_body none none none none none u).get "region"
      = some (.str "us-central1") :=
  ⟨rfl, rfl, rfl, rfl, rfl, rfl, rfl, rfl, rfl⟩

/-- C6 witness: the name rule evaluated at a concrete token. -/
theorem C6_default_bodies_witness :
    (default_database_instance_body "token").get "name"
      = some (.str ("cloudsql-db-" ++ "token")) :=
  (C6_default_bodies "token").1

/-- When every entry of the list has a `type` key, the `next` scan
returns exactly the first entry that `List.find?` selects with the same
filter. -/
theorem next_outgoing_eq_find (addrs : List Entry)
    (htyped : ∀ a ∈ addrs, (dictGet a "type").isSome) (e : Entry)
    (hfind : addrs.find? (fun a => dictGet a "type" == some "OUTGOING") = some e) :
    next_outgoing addrs = .ok e := by
  induction addrs with
  | nil => simp at hfind
  | cons a rest ih =>
    obtain ⟨t, ht⟩ := Option.isSome_iff_exists.mp (htyped a (List.mem_cons_self a rest))
    by_cases hOut : t = "OUTGOING"
    · subst hOut
      rw [List.find?_cons_of_pos _ (by simp [ht])] at hfind
      cases hfind
      simp [next_outgoing, ht]
    · rw [List.find?_cons_of_neg _ (by simp [ht, hOut])] at hfind
      simp only [next_outgoing, ht, if_neg hOut]
      exact ih (fun b hb => htyped b (List.mem_cons_of_mem a hb)) hfind

/-- C7: on a document whose address list is present, in which every
entry carries a `type` key, and whose first `OUTGOING` entry (in list
order) carries an `ipAddress` field, `get_outgoing_ip_of_instance`
returns exactly the value of that field. -/
theorem C7_first_outgoing (doc : InstanceDoc) (addrs : List Entry)
    (e : Entry) (ip : String)
    (haddr : doc.ipAddresses = some addrs)
    (htyped : ∀ a ∈ addrs, (dictGet a "type").isSome)
    (hfind : addrs.find? (fun a => dictGet a "type" == some "OUTGOING") = some e)
    (hip : dictGet e "ipAddress" = some ip) :
    get_outgoing_ip_of_instance doc = .ok ip := by
  have hnext := next_outgoing_eq_find addrs htyped e hfind
  have htruthy : e.truthy = true := by
    have hpred := List.find?_some hfind
    cases e with
    | nil => simp [dictGet] at hpred
    | cons p l => rfl
  simp [get_outgoing_ip_of_instance, haddr, hnext, htruthy, hip]

/-- C7 witness: on the two-entry list from the claim, the `OUTGOING`
entry is the one whose address `2.2.2.2` is returned. -/
theorem C7_first_outgoing_witness :
    get_outgoing_ip_of_instance
        ⟨some [[("type", "INCOMING"), ("ipAddress", "1.1.1.1")],
               [("type", "OUTGOING"), ("ipAddress", "2.2.2.2")]], none⟩
      = .ok "2.2.2.2" :=
  C7_first_outgoing _
    [[("type", "INCOMING"), ("ipAddress", "1.1.1.1")],
     [("type", "OUTGOING"), ("ipAddress", "2.2.2.2")]]
    [("type", "OUTGOING"), ("ipAddress", "2.2.2.2")] "2.2.2.2"
    rfl (by decide) (by decide) rfl

/-- C8 counterexample: a caller-supplied `database_version` outside the
supported set is sent verbatim in the default body;
`SUPPORTED_VERSIONS` is never consulted. -/
theorem C8_counterexample :
    (create_source_representation_body none DEFAULT_REPLICATION_PORT "MYSQL_8_0"
        DEFAULT_2ND_GEN_REGION none none "u1" "u2").get "databaseVersion"
      = some (.str "MYSQL_8_0")
    ∧ "MYSQL_8_0" ∉ SUPPORTED_VERSIONS :=
  ⟨rfl, by decide⟩

/-- C8 (amended): `create_source_representation` performs no version
validation: whatever `database_version` string the caller supplies is
the `databaseVersion` field of the default body it sends; only the
default value `MYSQL_5_7`, used when the caller omits the parameter,
is a member of `SUPPORTED_VERSIONS`. -/
theorem C8_version_passthrough (ip sn : Option String)
    (port dv rg u1 u2 : String) :
    (create_source_representation_body ip port dv rg sn none u1 u2).get
        "databaseVersion" = some (.str dv)
    ∧ DEFAULT_2ND_GEN_DB_VERSION ∈ SUPPORTED_VERSIONS :=
  ⟨rfl, by decide⟩

/-- C8 witness: the other supported version string also passes through. -/
theorem C8_version_passthrough_witness :
    (create_source_representation_body none "3306" "MYSQL_5_6" "us-central1"
        none none "u1" "u2").get "databaseVersion" = some (.str "MYSQL_5_6") :=
  (C8_version_passthrough none none "3306" "MYSQL_5_6" "us-central1" "u1" "u2").1

/-- C9: whenever the strict extraction succeeds with an address, the
lenient extraction succeeds on the same document and its IP component
is that same address (its identity component being the optional
service-account field of the document). -/
theorem C9_agreement (doc : InstanceDoc) (ip : String)
    (h : get_outgoing_ip_of_instance doc = .ok ip) :
    get_ip_and_service_account doc
      = .ok (some ip, doc.serviceAccountEmailAddress) := by
  obtain ⟨addrsOpt, sa⟩ := doc
  unfold get_outgoing_ip_of_instance at h
  unfold get_ip_and_service_account
  cases addrsOpt with
  | none => exact absurd h (by simp)
  | some addrs =>
    dsimp only at h ⊢
    cases hnext : next_outgoing addrs with
    | error e =>
      rw [hnext] at h
      exact absurd h (by simp)
    | ok entry =>
      rw [hnext] at h
      dsimp only at h ⊢
      by_cases htr : entry.truthy = true
      · rw [if_pos htr] at h ⊢
        cases hip : dictGet entry "ipAddress" with
        | none =>
          rw [hip] at h
          exact absurd h (by simp)
        | some ip0 =>
          rw [hip] at h
          dsimp only at h
          injection h with h2
          rw [h2]
      · rw [if_neg htr] at h
        exact absurd h (by simp)

/-- C9 witness: both extractions agree on a document with a single
`OUTGOING` entry. -/
theorem C9_agreement_witness :
    get_ip_and_service_account
        ⟨some [[("type", "OUTGOING"), ("ipAddress", "10.0.0.2")]],
         some "replica-robot@project.iam.gserviceaccount.com"⟩
      = .ok (some "10.0.0.2",
             some "replica-robot@project.iam.gserviceaccount.com") :=
  C9_agreement
    ⟨some [[("type", "OUTGOING"), ("ipAddress", "10.0.0.2")]],
     some "replica-robot@project.iam.gserviceaccount.com"⟩
    "10.0.0.2" rfl

/-- C10: with `ip_address` omitted (and every other parameter left at
its default), the default source body is still built and handed on
without any precondition check: its `hostPort` is the Python
string-formatting of `None` and the default port, i.e. the literal
`None:3306`. -/
theorem C10_none_hostport (u1 u2 : String) :
    (create_source_representation_body none DEFAULT_REPLICATION_PORT
        DEFAULT_2ND_GEN_DB_VERSION DEFAULT_2ND_GEN_REGION none none u1 u2).get
        "onPremisesConfiguration"
      = some (.obj [("kind", .str "sql#onPremisesConfiguration"),
                    ("hostPort", .str ("None" ++ ":" ++ "3306"))]) := rfl

/-- C10 witness: the formatted host-port string is the literal
`None:3306`. -/
theorem C10_none_hostport_witness :
    (create_source_representation_body none DEFAULT_REPLICATION_PORT
        DEFAULT_2ND_GEN_DB_VERSION DEFAULT_2ND_GEN_REGION none none "ua" "ub").get
        "onPremisesConfiguration"
      = some (.obj [("kind", .str "sql#onPremisesConfiguration"),
                    ("hostPort", .str "None:3306")]) := C10_none_hostport "ua" "ub"

end Cloudsql
